import Mathlib

/-!
Verification of the NSOT (Network Source of Truth) drift-detection pipeline.

Shallow embedding of the validation core of the repository:
  - tasks/config_validation.py  (ConfigValidator: fetching, baseline load,
    line-set comparison, batch orchestration)
  - tasks/report_generator.py   (ReportGenerator: aggregate statistics in the
    json / csv / xlsx / html encodings)
  - tasks/inventory_manager.py  (InventoryManager: the manufacturer-to-driver
    substring table)

External effects (the NAPALM gateway, the filesystem-backed baseline store,
exceptions raised inside a comparison, wall-clock timestamps) are passed in
explicitly as values of a `DeviceEnv` record; all functions below are pure
translations of the Python bodies.
-/

/-! ## Python string primitives used by the comparison -/

/-- Whitespace characters removed by Python `str.strip()` (ASCII subset:
space, tab, newline, carriage return, vertical tab, form feed). -/
def pyIsSpace (c : Char) : Bool :=
  c = ' ' || c = '\t' || c = '\n' || c = '\r' || c.toNat = 11 || c.toNat = 12

/-- Python `str.strip()`: drop leading and trailing whitespace of the whole
text (not of each line). -/
def pyStrip (s : String) : String :=
  String.mk (((s.data.dropWhile pyIsSpace).reverse.dropWhile pyIsSpace).reverse)

/-- Split a character list at newline characters, keeping empty pieces,
exactly as Python `str.split('\n')` does on the underlying text. -/
def splitNl : List Char → List (List Char)
  | [] => [[]]
  | c :: rest =>
    if c = '\n' then [] :: splitNl rest
    else
      match splitNl rest with
      | [] => [[c]]
      | l :: ls => (c :: l) :: ls

/-- Python `s.split('\n')`: always nonempty; `"".split('\n') = [""]`. -/
def pySplit (s : String) : List String :=
  (splitNl s.data).map fun l => String.mk l

/-- The line set a configuration text is reduced to by
`set(text.strip().split('\n'))` in `compare_configurations`
(config_validation.py lines 223-224). -/
def configLines (s : String) : Finset String :=
  (pySplit (pyStrip s)).toFinset

/-! ## ConfigValidator (tasks/config_validation.py) -/

/-- The three configuration texts returned by a successful
`get_device_config` (lines 153-158): `config_data.get` defaults each absent
entry to the empty string. -/
structure DeviceConfigs where
  running : String
  startup : String
  candidate : String
deriving DecidableEq

/-- The external world one device comparison interacts with.
`fetch = none` models the gateway-failure / exception paths of
`get_device_config` (lines 149-151 and 160-162), both of which return the
empty dict `{}`.  `sot ct` is what `load_source_of_truth_config` returns for
config-type `ct` (`none` when the baseline file is absent or unreadable,
lines 193-201).  `exc = some e` models an exception with text `e` raised
while `compare_configurations` runs its body, caught at lines 248-256. -/
structure DeviceEnv where
  fetch : Option DeviceConfigs
  sot : String → Option String
  exc : Option String

/-- `get_device_config` (lines 138-162): either the three-entry config dict,
or the empty dict (modelled `none`) on any failure. -/
def get_device_config (env : DeviceEnv) : Option DeviceConfigs :=
  env.fetch

/-- `live_configs.get(config_type, "")` (line 208): lookup in the dict
returned by `get_device_config`; the empty dict and unknown keys give `""`. -/
def dictGetConfig (configs : Option DeviceConfigs) (config_type : String) : String :=
  match configs with
  | none => ""
  | some c =>
    if config_type = "running" then c.running
    else if config_type = "startup" then c.startup
    else if config_type = "candidate" then c.candidate
    else ""

/-- `load_source_of_truth_config` (lines 190-201): the stored baseline text,
or `none` when the file is absent (or reading failed). -/
def load_source_of_truth_config (env : DeviceEnv) (config_type : String) : Option String :=
  env.sot config_type

/-- The result dict of `compare_configurations`.  Fields that only some
branches emit (`message`, `missing_lines`, `extra_lines`) are `Option`s; the
`missing_lines` / `extra_lines` values are Python sets, modelled as
`Finset String` (the source converts them to lists in unspecified hash
order).  The wall-clock `timestamp` field is omitted. -/
structure CompareResult where
  device : String
  status : String
  message : Option String
  drift_detected : Bool
  issues : List String
  missing_lines : Option (Finset String)
  extra_lines : Option (Finset String)
deriving DecidableEq

/-- The no-baseline result of `compare_configurations` (lines 213-220):
status error, the explanation in `message`, and an EMPTY `issues` list. -/
def noSotResult (device_name : String) : CompareResult :=
  { device := device_name
    status := "error"
    message := some "No source of truth configuration found"
    drift_detected := false
    issues := []
    missing_lines := none
    extra_lines := none }

/-- The except-branch result of `compare_configurations` (lines 248-256). -/
def comparisonErrorResult (device_name e : String) : CompareResult :=
  { device := device_name
    status := "error"
    message := some e
    drift_detected := false
    issues := ["Comparison error: " ++ e]
    missing_lines := none
    extra_lines := none }

/-- `compare_configurations` (lines 203-256), with the gateway, the baseline
store and any raised exception supplied through `env`. -/
def compare_configurations (device_name : String) (env : DeviceEnv)
    (config_type : String) : CompareResult :=
  match env.exc with
  | some e => comparisonErrorResult device_name e
  | none =>
    let live_configs := get_device_config env
    let live_config := dictGetConfig live_configs config_type
    match load_source_of_truth_config env config_type with
    | none => noSotResult device_name
    | some sot_config =>
      if sot_config = "" then noSotResult device_name
      else
        let live_lines := configLines live_config
        let sot_lines := configLines sot_config
        let missing_in_live := sot_lines \ live_lines
        let extra_in_live := live_lines \ sot_lines
        { device := device_name
          status := "success"
          message := none
          drift_detected :=
            decide (0 < missing_in_live.card) || decide (0 < extra_in_live.card)
          issues :=
            (if 0 < missing_in_live.card then
              ["Missing " ++ toString missing_in_live.card ++ " lines from source of truth"]
            else [])
            ++ (if 0 < extra_in_live.card then
              ["Extra " ++ toString extra_in_live.card ++ " lines not in source of truth"]
            else [])
          missing_lines := some missing_in_live
          extra_lines := some extra_in_live }

/-- Config-type expansion inside `validate_configurations` (lines 272-275):
`"all"` becomes running and startup, anything else stays a singleton. -/
def expandConfigTypes (config_type : String) : List String :=
  if config_type = "all" then ["running", "startup"] else [config_type]

/-- The sentinel result of the outer except branch of
`validate_configurations` (lines 286-294). -/
def validationErrorResult (e : String) : CompareResult :=
  { device := "unknown"
    status := "error"
    message := some e
    drift_detected := false
    issues := ["Validation error: " ++ e]
    missing_lines := none
    extra_lines := none }

/-- `validate_configurations` (lines 258-294) on the already-filtered device
list (the group filter and inventory live outside the core).  `batchExc`
models an exception raised before or during the loop (e.g. an unreadable
inventory), caught by the outer `except` which returns the single sentinel
result; otherwise every (device, config-type) pair is compared in order. -/
def validate_configurations (devices : List (String × DeviceEnv))
    (config_type : String) (batchExc : Option String) : List CompareResult :=
  match batchExc with
  | some e => [validationErrorResult e]
  | none =>
    devices.flatMap fun d =>
      (expandConfigTypes config_type).map (compare_configurations d.1 d.2)

/-! ## ReportGenerator (tasks/report_generator.py) -/

/-- `devices_with_drift` of a result list (lines 52, 104, 140). -/
def devices_with_drift (results : List CompareResult) : Nat :=
  (results.filter fun r => r.drift_detected).length

/-- `devices_with_errors` of a result list (lines 53, 105, 141). -/
def devices_with_errors (results : List CompareResult) : Nat :=
  (results.filter fun r => r.status == "error").length

/-- The statistics of the `report_metadata` object of the json encoding
(lines 48-54): total, drift and error counts and nothing else (the only
further key is the wall-clock `generated_at`). -/
def json_report_metadata (results : List CompareResult) : List (String × Nat) :=
  [("total_devices", results.length),
   ("devices_with_drift", devices_with_drift results),
   ("devices_with_errors", devices_with_errors results)]

/-- Python `str(bool)` as the csv writer renders it. -/
def pyBoolStr (b : Bool) : String := if b then "True" else "False"

/-- `"; ".join(issues)` (lines 80, 121, 207). -/
def joinIssues (issues : List String) : String := String.intercalate "; " issues

/-- The csv header row (lines 73-76). -/
def csvHeader : List String :=
  ["Device", "Status", "Drift Detected", "Issues Count", "Issues", "Timestamp"]

/-- One csv data row (lines 79-88); the wall-clock timestamp cell is
modelled as the `.get` default `""`. -/
def csvRow (r : CompareResult) : List String :=
  [r.device, r.status, pyBoolStr r.drift_detected,
   toString r.issues.length, joinIssues r.issues, ""]

/-- The full csv report (lines 69-88): a header row followed by one row per
result — the csv encoding computes no aggregate at all. -/
def csvReport (results : List CompareResult) : List (List String) :=
  csvHeader :: results.map csvRow

/-- The numerator of the xlsx "Success Rate" cell (line 106): the number of
results whose status is `"success"` — not `total - errors`. -/
def xlsxSuccessCount (results : List CompareResult) : Nat :=
  (results.filter fun r => r.status == "success").length

/-- The xlsx "Success Rate" cell (line 106): the string `"successes/total"`,
built without any division. -/
def xlsxSuccessRateCell (results : List CompareResult) : String :=
  toString (xlsxSuccessCount results) ++ "/" ++ toString results.length

/-- The statistics rows of the xlsx Summary sheet (lines 101-107), without
the wall-clock "Report Generated" row. -/
def xlsxSummaryStats (results : List CompareResult) : List (String × String) :=
  [("Total Devices", toString results.length),
   ("Devices with Drift", toString (devices_with_drift results)),
   ("Devices with Errors", toString (devices_with_errors results)),
   ("Success Rate", xlsxSuccessRateCell results)]

/-- The html encoding's success rate (line 142):
`(total - errors) / total * 100` when the list is nonempty, else `0`. -/
def htmlSuccessRate (results : List CompareResult) : ℚ :=
  if 0 < results.length then
    ((results.length : ℚ) - (devices_with_errors results : ℚ))
      / (results.length : ℚ) * 100
  else 0

/-- Modelled from the spec: the success rate the Report Generator section
demands of every encoding, `(total - errors) / total`, defined as `0` when
the result list is empty.  Stated from the spec's words so it can be
compared with the encodings actually found in report_generator.py. -/
def specSuccessRate (results : List CompareResult) : ℚ :=
  if results.length = 0 then 0
  else ((results.length : ℚ) - (devices_with_errors results : ℚ))
    / (results.length : ℚ)

/-! ## InventoryManager (tasks/inventory_manager.py) -/

/-- ASCII lower-casing of one character, as Python `str.lower()` acts on the
ASCII range (the mapping-table keys are all ASCII). -/
def asciiLower (c : Char) : Char :=
  if 'A' ≤ c ∧ c ≤ 'Z' then Char.ofNat (c.toNat + 32) else c

/-- Python `str.lower()` restricted to ASCII. -/
def pyLower (s : String) : String := String.mk (s.data.map asciiLower)

/-- Does `needle` occur at the head of `hay`? -/
def charsLeading : List Char → List Char → Bool
  | [], _ => true
  | _ :: _, [] => false
  | n :: ns, h :: hs => n == h && charsLeading ns hs

/-- Does `needle` occur anywhere in `hay`?  Python's `needle in hay`. -/
def charsContain (needle : List Char) : List Char → Bool
  | [] => charsLeading needle []
  | h :: hs => charsLeading needle (h :: hs) || charsContain needle hs

/-- Python `needle in hay` on strings. -/
def strContains (hay needle : String) : Bool :=
  charsContain needle.data hay.data

/-- The manufacturer-to-driver table of `_map_manufacturer_to_driver`
(lines 191-203), as the ordered list Python 3.7+ dict iteration yields. -/
def driverMapping : List (String × String) :=
  [("cisco", "ios"), ("juniper", "junos"), ("arista", "eos"),
   ("hp", "procurve"), ("huawei", "vrp"), ("fortinet", "fortios"),
   ("palo alto", "panos"), ("mikrotik", "ros"), ("f5", "f5"),
   ("nxos", "nxos"), ("iosxr", "iosxr")]

/-- The for-loop of `_map_manufacturer_to_driver` (lines 206-210): first
entry whose key is a substring of the lowered manufacturer wins; the
fall-through returns the default `"ios"`. -/
def lookupDriver : List (String × String) → String → String
  | [], _ => "ios"
  | (k, d) :: rest, m => if strContains m k then d else lookupDriver rest m

/-- `_map_manufacturer_to_driver` (lines 189-210). -/
def map_manufacturer_to_driver (manufacturer : String) : String :=
  lookupDriver driverMapping (pyLower manufacturer)

/-! ## Concrete environments used by witnesses and counterexamples -/

/-- A device whose gateway fetch failed but which has the baseline
`"line1"` saved for every config-type. -/
def envGatewayFail : DeviceEnv :=
  { fetch := none, sot := fun _ => some "line1", exc := none }

/-- A reachable device with no saved baseline. -/
def envNoBaseline : DeviceEnv :=
  { fetch := some { running := "line1", startup := "line1", candidate := "" }
    sot := fun _ => none
    exc := none }

/-- A healthy device whose live running config matches its baseline. -/
def envOkA : DeviceEnv :=
  { fetch := some { running := "a", startup := "a", candidate := "" }
    sot := fun _ => some "a"
    exc := none }

/-- A device whose comparison raises the exception text `"boom"`. -/
def envBoom : DeviceEnv :=
  { fetch := none, sot := fun _ => none, exc := some "boom" }

/-- A device whose live running text is a reordering of the baseline's lines
but with a boundary line that carries leading whitespace. -/
def envReorderWS : DeviceEnv :=
  { fetch := some { running := "b\n a", startup := "", candidate := "" }
    sot := fun _ => some " a\nb"
    exc := none }

/-- A device whose live running text reorders and duplicates the baseline's
lines without touching boundary whitespace. -/
def envReorderOk : DeviceEnv :=
  { fetch := some { running := "b\na\nb", startup := "", candidate := "" }
    sot := fun _ => some "a\nb\na"
    exc := none }

/-- The concrete scenario of the spec: baseline `line1..line3`, live
`line2..line4`. -/
def envScenario : DeviceEnv :=
  { fetch := some { running := "line2\nline3\nline4", startup := "", candidate := "" }
    sot := fun _ => some "line1\nline2\nline3"
    exc := none }

/-- A device whose baseline file exists but holds the empty text. -/
def envEmptyBaseline : DeviceEnv :=
  { fetch := some { running := "line1", startup := "", candidate := "" }
    sot := fun _ => some ""
    exc := none }

/-! ## Helper lemmas about the orchestrator -/

/-- Batch validation distributes over appending device lists. -/
theorem validate_append (l1 l2 : List (String × DeviceEnv)) (ct : String) :
    validate_configurations (l1 ++ l2) ct none
      = validate_configurations l1 ct none ++ validate_configurations l2 ct none := by
  simp [validate_configurations]

/-- Batch validation of a head device prepends its per-config-type results. -/
theorem validate_cons (d : String × DeviceEnv) (ds : List (String × DeviceEnv)) (ct : String) :
    validate_configurations (d :: ds) ct none
      = (expandConfigTypes ct).map (compare_configurations d.1 d.2)
        ++ validate_configurations ds ct none := by
  simp [validate_configurations]

/-- A batch without a whole-batch exception has one result per
(device, config-type) pair. -/
theorem validate_length (devices : List (String × DeviceEnv)) (ct : String) :
    (validate_configurations devices ct none).length
      = devices.length * (expandConfigTypes ct).length := by
  induction devices with
  | nil => simp [validate_configurations]
  | cons d ds ih => simp [validate_cons, ih, Nat.succ_mul, Nat.add_comm]

/-- An exception raised while comparing one device yields exactly the
except-branch result of `compare_configurations`. -/
theorem compare_exc (name ct e : String) (env : DeviceEnv) (hx : env.exc = some e) :
    compare_configurations name env ct = comparisonErrorResult name e := by
  simp [compare_configurations, hx]

/-! ## Claim C1 -/

/-- Claim C1, counterexample.  The claim says a failed gateway fetch makes
`compare_configurations` return status error with the gateway message in the
issues and no comparison performed.  On the device `envGatewayFail`, whose
fetch failed and whose baseline is `"line1"`, the code instead compares the
baseline against the empty live text: status is `success`, drift is
detected, and the issues are the ordinary missing/extra summaries. -/
theorem C1_counterexample :
    (compare_configurations "rtr-01" envGatewayFail "running").status = "success"
    ∧ (compare_configurations "rtr-01" envGatewayFail "running").drift_detected = true
    ∧ (compare_configurations "rtr-01" envGatewayFail "running").issues
        = ["Missing 1 lines from source of truth",
           "Extra 1 lines not in source of truth"] := by decide

/-- Claim C1, amended.  When the gateway fetch fails, `get_device_config`
returns the empty dict, the live text becomes `""`, and — provided a truthy
baseline `s` exists — `compare_configurations` proceeds to compare `s`
against that empty text, returning status `success` with the line-set
differences of `s` versus `""` (the gateway error message is never
surfaced). -/
theorem C1_amended (name ct s : String) (env : DeviceEnv)
    (hf : env.fetch = none) (he : env.exc = none) (hs : env.sot ct = some s)
    (hne : s ≠ "") :
    (compare_configurations name env ct).status = "success"
    ∧ (compare_configurations name env ct).message = none
    ∧ (compare_configurations name env ct).missing_lines
        = some (configLines s \ configLines "")
    ∧ (compare_configurations name env ct).extra_lines
        = some (configLines "" \ configLines s) := by
  simp [compare_configurations, get_device_config, load_source_of_truth_config,
    dictGetConfig, hf, he, hs, hne]

/-- Claim C1, witness for the amended theorem at the concrete device
`envGatewayFail` with baseline `"line1"`. -/
theorem C1_amended_witness :
    (compare_configurations "rtr-01" envGatewayFail "running").status = "success"
    ∧ (compare_configurations "rtr-01" envGatewayFail "running").message = none
    ∧ (compare_configurations "rtr-01" envGatewayFail "running").missing_lines
        = some (configLines "line1" \ configLines "")
    ∧ (compare_configurations "rtr-01" envGatewayFail "running").extra_lines
        = some (configLines "" \ configLines "line1") :=
  C1_amended "rtr-01" "running" "line1" envGatewayFail rfl rfl rfl (by decide)

/-! ## Claim C2 -/

/-- Claim C2, counterexample.  The claim says the no-baseline result carries
an issues list with exactly one "no source of truth" entry; on the concrete
device `envNoBaseline` the code returns the explanation in the `message`
field and an EMPTY issues list. -/
theorem C2_counterexample :
    (compare_configurations "rtr-01" envNoBaseline "running").status = "error"
    ∧ (compare_configurations "rtr-01" envNoBaseline "running").issues = []
    ∧ (compare_configurations "rtr-01" envNoBaseline "running").message
        = some "No source of truth configuration found" := by decide

/-- Claim C2, amended.  For every device and config-type with no saved
baseline, `compare_configurations` returns status `error`, drift-detected
false, the text "No source of truth configuration found" in the `message`
field, and an empty issues list. -/
theorem C2_amended (name ct : String) (env : DeviceEnv)
    (he : env.exc = none) (hs : env.sot ct = none) :
    compare_configurations name env ct = noSotResult name
    ∧ (noSotResult name).status = "error"
    ∧ (noSotResult name).drift_detected = false
    ∧ (noSotResult name).issues = []
    ∧ (noSotResult name).message = some "No source of truth configuration found" := by
  refine ⟨?_, rfl, rfl, rfl, rfl⟩
  simp [compare_configurations, load_source_of_truth_config, he, hs]

/-- Claim C2, witness for the amended theorem at the concrete device
`envNoBaseline`. -/
theorem C2_amended_witness :
    compare_configurations "rtr-01" envNoBaseline "running" = noSotResult "rtr-01"
    ∧ (noSotResult "rtr-01").status = "error"
    ∧ (noSotResult "rtr-01").drift_detected = false
    ∧ (noSotResult "rtr-01").issues = []
    ∧ (noSotResult "rtr-01").message = some "No source of truth configuration found" :=
  C2_amended "rtr-01" "running" envNoBaseline rfl rfl

/-! ## Claim C3 -/

/-- Claim C3, counterexample.  The claim says every encoding surfaces a
success rate `(total - errors) / total`, equal to `0` on the empty result
list.  On the empty list the xlsx encoding surfaces only the string `"0/0"`
(its ratio cell is built from the success count, with no division), the json
encoding's metadata carries only the three counts and no rate, and the csv
encoding is a lone header row with no aggregate at all — while the spec's
rate (`specSuccessRate`) is the number `0`. -/
theorem C3_counterexample :
    xlsxSuccessRateCell [] = "0/0"
    ∧ json_report_metadata []
        = [("total_devices", 0), ("devices_with_drift", 0), ("devices_with_errors", 0)]
    ∧ csvReport [] = [csvHeader]
    ∧ xlsxSummaryStats []
        = [("Total Devices", "0"), ("Devices with Drift", "0"),
           ("Devices with Errors", "0"), ("Success Rate", "0/0")]
    ∧ specSuccessRate [] = 0 := by decide

/-- Claim C3, amended.  Only the html encoding computes the success rate
`(total - errors) / total` (rendered as a percentage, i.e. multiplied by
100), and it is `0` when the result list is empty, so no division error can
occur.  The json encoding surfaces the total, drift and error counts but no
rate; the csv encoding surfaces only a header plus one row per result; the
xlsx encoding surfaces the three counts and a division-free ratio string
whose numerator is the count of status-`success` results. -/
theorem C3_amended (results : List CompareResult) (h : 0 < results.length) :
    htmlSuccessRate [] = 0
    ∧ htmlSuccessRate results = specSuccessRate results * 100
    ∧ devices_with_errors results ≤ results.length
    ∧ json_report_metadata results
        = [("total_devices", results.length),
           ("devices_with_drift", devices_with_drift results),
           ("devices_with_errors", devices_with_errors results)]
    ∧ (csvReport results).length = results.length + 1
    ∧ xlsxSuccessRateCell results
        = toString (xlsxSuccessCount results) ++ "/" ++ toString results.length := by
  refine ⟨by norm_num [htmlSuccessRate], ?_, List.length_filter_le _ _, rfl,
    by simp [csvReport], rfl⟩
  have h0 : results.length ≠ 0 := Nat.pos_iff_ne_zero.mp h
  simp [htmlSuccessRate, specSuccessRate, h, h0]

/-- Claim C3, witness for the amended theorem on a concrete one-element
result list. -/
theorem C3_amended_witness :
    0 < [validationErrorResult "disk failure"].length
    ∧ (htmlSuccessRate [] = 0
      ∧ htmlSuccessRate [validationErrorResult "disk failure"]
          = specSuccessRate [validationErrorResult "disk failure"] * 100
      ∧ devices_with_errors [validationErrorResult "disk failure"]
          ≤ [validationErrorResult "disk failure"].length
      ∧ json_report_metadata [validationErrorResult "disk failure"]
          = [("total_devices", [validationErrorResult "disk failure"].length),
             ("devices_with_drift", devices_with_drift [validationErrorResult "disk failure"]),
             ("devices_with_errors", devices_with_errors [validationErrorResult "disk failure"])]
      ∧ (csvReport [validationErrorResult "disk failure"]).length
          = [validationErrorResult "disk failure"].length + 1
      ∧ xlsxSuccessRateCell [validationErrorResult "disk failure"]
          = toString (xlsxSuccessCount [validationErrorResult "disk failure"])
            ++ "/" ++ toString [validationErrorResult "disk failure"].length) :=
  ⟨by decide, C3_amended [validationErrorResult "disk failure"] (by decide)⟩

/-! ## Claim C4 -/

/-- Claim C4, counterexample.  The claim says any two texts whose lines form
the same set of distinct lines compare without drift.  The texts `" a\nb"`
and `"b\n a"` have line lists `[" a", "b"]` and `["b", " a"]` — the same set
of lines, one a reordering of the other — yet the code detects drift,
because `str.strip()` is applied to the whole text before splitting and
removes the leading space of `" a"` only when that line sits at the start of
the text. -/
theorem C4_counterexample :
    pySplit " a\nb" = [" a", "b"]
    ∧ pySplit "b\n a" = ["b", " a"]
    ∧ (pySplit " a\nb").toFinset = (pySplit "b\n a").toFinset
    ∧ (compare_configurations "rtr-01" envReorderWS "running").drift_detected = true := by
  decide

/-- Claim C4, amended.  Line order and duplicate counts are irrelevant once
whole-text stripping is accounted for: whenever the stripped live text and
the stripped baseline text yield the same set of lines (`configLines`), the
comparison reports no drift.  Reordering or duplicating lines of a text can
change the verdict only by changing which leading/trailing whitespace
`str.strip()` removes at the two ends of the text. -/
theorem C4_amended (name ct s : String) (env : DeviceEnv)
    (he : env.exc = none) (hs : env.sot ct = some s) (hne : s ≠ "")
    (hlines : configLines (dictGetConfig env.fetch ct) = configLines s) :
    (compare_configurations name env ct).drift_detected = false
    ∧ (compare_configurations name env ct).status = "success" := by
  simp [compare_configurations, get_device_config, load_source_of_truth_config,
    he, hs, hne, hlines, Finset.sdiff_self]

/-- Claim C4, witness for the amended theorem: live text `"b\na\nb"` is a
reordering-with-duplication of baseline `"a\nb\na"`; no drift is reported. -/
theorem C4_amended_witness :
    (compare_configurations "rtr-01" envReorderOk "running").drift_detected = false
    ∧ (compare_configurations "rtr-01" envReorderOk "running").status = "success" :=
  C4_amended "rtr-01" "running" "a\nb\na" envReorderOk rfl rfl (by decide) (by decide)

/-! ## Claim C5 -/

/-- Claim C5.  For baseline `"line1\nline2\nline3"` and live
`"line2\nline3\nline4"`, the comparison returns missing lines `{"line1"}`,
extra lines `{"line4"}`, drift detected, status `success`, and the issues
`["Missing 1 lines from source of truth",
"Extra 1 lines not in source of truth"]`. -/
theorem C5_concrete_scenario :
    compare_configurations "rtr-01" envScenario "running"
      = { device := "rtr-01"
          status := "success"
          message := none
          drift_detected := true
          issues := ["Missing 1 lines from source of truth",
                     "Extra 1 lines not in source of truth"]
          missing_lines := some {"line1"}
          extra_lines := some {"line4"} } := by decide

/-! ## Claim C6 -/

/-- Claim C6.  A failure while comparing one device's configuration is
captured in that device's own result — the except-branch result with status
`error` — and does not halt the batch: the devices before and after it are
processed exactly as they otherwise would be, and the batch still holds one
result per (device, config-type) pair. -/
theorem C6_partial_failure (pre post : List (String × DeviceEnv))
    (name e ct : String) (env : DeviceEnv) (hx : env.exc = some e) :
    validate_configurations (pre ++ (name, env) :: post) ct none
      = validate_configurations pre ct none
        ++ (expandConfigTypes ct).map (fun _ => comparisonErrorResult name e)
        ++ validate_configurations post ct none
    ∧ (comparisonErrorResult name e).status = "error"
    ∧ (comparisonErrorResult name e).device = name
    ∧ (validate_configurations (pre ++ (name, env) :: post) ct none).length
        = (pre.length + 1 + post.length) * (expandConfigTypes ct).length := by
  refine ⟨?_, rfl, rfl, ?_⟩
  · rw [validate_append, validate_cons]
    rw [List.map_congr_left (fun c _ => compare_exc name c e env hx)]
    simp [List.append_assoc]
  · rw [validate_length]
    have hlen : (pre ++ (name, env) :: post).length = pre.length + 1 + post.length := by
      simp; omega
    rw [hlen]

/-- Claim C6, witness: a batch of three devices whose middle device raises
`"boom"` while being compared still yields the full batch, with the middle
device's own error result in place. -/
theorem C6_witness :
    validate_configurations
        ([("d1", envOkA)] ++ ("d2", envBoom) :: [("d3", envOkA)]) "running" none
      = validate_configurations [("d1", envOkA)] "running" none
        ++ (expandConfigTypes "running").map (fun _ => comparisonErrorResult "d2" "boom")
        ++ validate_configurations [("d3", envOkA)] "running" none
    ∧ (comparisonErrorResult "d2" "boom").status = "error"
    ∧ (comparisonErrorResult "d2" "boom").device = "d2"
    ∧ (validate_configurations
        ([("d1", envOkA)] ++ ("d2", envBoom) :: [("d3", envOkA)]) "running" none).length
        = ([("d1", envOkA)].length + 1 + [("d3", envOkA)].length)
          * (expandConfigTypes "running").length :=
  C6_partial_failure [("d1", envOkA)] [("d3", envOkA)] "d2" "boom" "running" envBoom rfl

/-! ## Claim C7 -/

/-- Claim C7.  For every device in a batch, config-type `"all"` produces
exactly two results for that device — one for `"running"` and one for
`"startup"`, in that order, never `"candidate"` — while any other
config-type value produces exactly one result for that single type. -/
theorem C7_config_type_expansion (pre post : List (String × DeviceEnv))
    (name ct : String) (env : DeviceEnv) :
    validate_configurations (pre ++ (name, env) :: post) "all" none
      = validate_configurations pre "all" none
        ++ [compare_configurations name env "running",
            compare_configurations name env "startup"]
        ++ validate_configurations post "all" none
    ∧ expandConfigTypes "all" = ["running", "startup"]
    ∧ "candidate" ∉ expandConfigTypes "all"
    ∧ (ct ≠ "all" →
        validate_configurations (pre ++ (name, env) :: post) ct none
          = validate_configurations pre ct none
            ++ [compare_configurations name env ct]
            ++ validate_configurations post ct none) := by
  refine ⟨?_, by decide, by decide, fun hct => ?_⟩
  · rw [validate_append, validate_cons]
    simp [expandConfigTypes, List.append_assoc]
  · rw [validate_append, validate_cons]
    simp [expandConfigTypes, hct, List.append_assoc]

/-- Claim C7, witness: a single healthy device validated with `"all"` yields
the running and startup results in order, and with `"startup"` yields one
result. -/
theorem C7_witness :
    validate_configurations ([] ++ ("d1", envOkA) :: []) "all" none
      = validate_configurations [] "all" none
        ++ [compare_configurations "d1" envOkA "running",
            compare_configurations "d1" envOkA "startup"]
        ++ validate_configurations [] "all" none
    ∧ expandConfigTypes "all" = ["running", "startup"]
    ∧ "candidate" ∉ expandConfigTypes "all"
    ∧ validate_configurations ([] ++ ("d1", envOkA) :: []) "startup" none
      = validate_configurations [] "startup" none
        ++ [compare_configurations "d1" envOkA "startup"]
        ++ validate_configurations [] "startup" none := by
  have h := C7_config_type_expansion [] [] "d1" "startup" envOkA
  exact ⟨h.1, h.2.1, h.2.2.1, h.2.2.2 (by decide)⟩

/-! ## Claim C8 -/

/-- Claim C8.  A whole-batch failure (an exception before per-device
processing, e.g. an unreadable inventory) makes `validate_configurations`
return the single-element sentinel batch: device `"unknown"`, status
`error`, drift-detected false, the failure text in `message` — never an
empty list (and, the embedding being total, never a raised exception). -/
theorem C8_total_failure (devices : List (String × DeviceEnv)) (ct e : String) :
    validate_configurations devices ct (some e) = [validationErrorResult e]
    ∧ (validationErrorResult e).device = "unknown"
    ∧ (validationErrorResult e).status = "error"
    ∧ (validationErrorResult e).drift_detected = false
    ∧ (validationErrorResult e).message = some e
    ∧ (validationErrorResult e).issues = ["Validation error: " ++ e]
    ∧ validate_configurations devices ct (some e) ≠ [] :=
  ⟨rfl, rfl, rfl, rfl, rfl, rfl, by simp [validate_configurations]⟩

/-! ## Claim C9 -/

/-- The Python for-loop falls through to the default driver when no table
key occurs in the manufacturer string. -/
theorem lookupDriver_default (table : List (String × String)) (m : String)
    (h : ∀ p ∈ table, strContains m p.1 = false) : lookupDriver table m = "ios" := by
  induction table with
  | nil => rfl
  | cons p rest ih =>
    obtain ⟨k, d⟩ := p
    have hk := h (k, d) (List.mem_cons_self _ _)
    simp only [lookupDriver, hk, if_false, Bool.false_eq_true]
    exact ih fun q hq => h q (List.mem_cons_of_mem _ hq)

/-- The Python for-loop returns the driver of the first table entry whose
key occurs in the manufacturer string. -/
theorem lookupDriver_first (pre : List (String × String)) (k d : String)
    (post : List (String × String)) (m : String)
    (hpre : ∀ p ∈ pre, strContains m p.1 = false)
    (hk : strContains m k = true) :
    lookupDriver (pre ++ (k, d) :: post) m = d := by
  induction pre with
  | nil => simp [lookupDriver, hk]
  | cons q rest ih =>
    obtain ⟨qk, qd⟩ := q
    have hq := hpre (qk, qd) (List.mem_cons_self _ _)
    simp only [List.cons_append, lookupDriver, hq, if_false, Bool.false_eq_true]
    exact ih fun p hp => hpre p (List.mem_cons_of_mem _ hp)

/-- Claim C9.  The vendor-to-driver mapping is the fixed substring table
`driverMapping`, evaluated in declaration order against the lower-cased
manufacturer string: if some key occurs as a substring, the first matching
entry's driver is returned; a manufacturer string containing none of the
keys maps to the default driver `"ios"`. -/
theorem C9_driver_mapping (manufacturer : String) :
    ((∀ p ∈ driverMapping, strContains (pyLower manufacturer) p.1 = false) →
      map_manufacturer_to_driver manufacturer = "ios")
    ∧ (∀ pre k d post, driverMapping = pre ++ (k, d) :: post →
        (∀ p ∈ pre, strContains (pyLower manufacturer) p.1 = false) →
        strContains (pyLower manufacturer) k = true →
        map_manufacturer_to_driver manufacturer = d) := by
  constructor
  · intro h
    exact lookupDriver_default _ _ h
  · intro pre k d post htab hpre hk
    unfold map_manufacturer_to_driver
    rw [htab]
    exact lookupDriver_first pre k d post _ hpre hk

/-- Claim C9, witness: the unmatched manufacturer `"Generic Vendor"` falls
back to `"ios"`, and `"Juniper Networks"` hits the `"juniper"` entry (the
second of the table) giving `"junos"`. -/
theorem C9_witness :
    map_manufacturer_to_driver "Generic Vendor" = "ios"
    ∧ map_manufacturer_to_driver "Juniper Networks" = "junos" := by
  constructor
  · exact (C9_driver_mapping "Generic Vendor").1 (by decide)
  · exact (C9_driver_mapping "Juniper Networks").2
      [("cisco", "ios")] "juniper" "junos"
      [("arista", "eos"), ("hp", "procurve"), ("huawei", "vrp"),
       ("fortinet", "fortios"), ("palo alto", "panos"), ("mikrotik", "ros"),
       ("f5", "f5"), ("nxos", "nxos"), ("iosxr", "iosxr")]
      (by decide) (by decide) (by decide)

/-! ## Claim C10 -/

/-- Claim C10.  A saved baseline holding the empty text is treated as
absent: `load_source_of_truth_config` returns the (empty) text rather than
`none`, yet `compare_configurations` — whose guard is Python truthiness,
`if not sot_config` — still returns the "No source of truth configuration
found" error result. -/
theorem C10_empty_baseline (name ct : String) (env : DeviceEnv)
    (he : env.exc = none) (hs : env.sot ct = some "") :
    load_source_of_truth_config env ct = some ""
    ∧ compare_configurations name env ct = noSotResult name
    ∧ (noSotResult name).status = "error"
    ∧ (noSotResult name).drift_detected = false
    ∧ (noSotResult name).message = some "No source of truth configuration found" := by
  refine ⟨by simp [load_source_of_truth_config, hs], ?_, rfl, rfl, rfl⟩
  simp [compare_configurations, load_source_of_truth_config, he, hs]

/-- Claim C10, witness at the concrete device `envEmptyBaseline`, whose
baseline file exists but is empty. -/
theorem C10_witness :
    load_source_of_truth_config envEmptyBaseline "running" = some ""
    ∧ compare_configurations "rtr-01" envEmptyBaseline "running" = noSotResult "rtr-01"
    ∧ (noSotResult "rtr-01").status = "error"
    ∧ (noSotResult "rtr-01").drift_detected = false
    ∧ (noSotResult "rtr-01").message = some "No source of truth configuration found" :=
  C10_empty_baseline "rtr-01" "running" envEmptyBaseline rfl rfl
